import Mathlib

/-!
Shallow embedding of the batch image-captioning service in `main.py`.

The endpoint `create_captions_for_images_in_folder` is modelled as a pure
function of an environment `Env` that packages the external collaborators the
Python code calls into: `os.path.isdir`, `os.listdir` (which may raise
`OSError`), `PIL.Image.open(...).convert("RGB")` (which may raise
`FileNotFoundError` or any other exception, or — defensively — yield `None`),
`os.path.abspath`, and the global Hugging Face `captioner` handle (which is
`None` when startup initialization failed).  The captioner's raw Python output
is modelled by `CaptionsOutput`/`PyVal`, covering exactly the shapes the code
discriminates: a list whose first element is a dict with a `generated_text`
key, a list whose first element is anything else, an empty list, and any
non-list (or falsy) value.
-/

/-- `SUPPORTED_EXTENSIONS` from `main.py`: the fixed extension allow-list. -/
def SUPPORTED_EXTENSIONS : List String :=
  [".png", ".jpg", ".jpeg", ".bmp", ".gif", ".webp"]

/-- The fixed generation parameters (`GENERATION_ARGS` in `main.py`). -/
structure GenerationArgs where
  max_length : Nat
  num_beams : Nat
  early_stopping : Bool
  repetition_penalty : Rat
deriving DecidableEq

/-- `GENERATION_ARGS` from `main.py`. -/
def GENERATION_ARGS : GenerationArgs :=
  { max_length := 150, num_beams := 5, early_stopping := true,
    repetition_penalty := (6 : Rat) / 5 }

/-- Request body (`ImageCaptionRequest` in `main.py`). -/
structure ImageCaptionRequest where
  folder_location : String
deriving DecidableEq

/-- One entry of the `results` list (`ImageCaptionResponseItem` in `main.py`). -/
structure ImageCaptionResponseItem where
  image_path : String
  description : String
deriving DecidableEq

/-- The overall response (`CaptionSummaryResponse` in `main.py`). -/
structure CaptionSummaryResponse where
  total_images_found : Nat
  successfully_captioned : Nat
  results : List ImageCaptionResponseItem
  message : String
  errors : List String
deriving DecidableEq

/-- An `HTTPException` raised by the endpoint, with its status code and detail. -/
inductive HTTPError where
  | e503 (detail : String)
  | e400 (detail : String)
  | e500 (detail : String)
deriving DecidableEq

/-- One element of the captioner's raw output list: either a dict carrying a
`generated_text` string, or any other Python value (carried as its `str()`
rendering, which the code interpolates into the error message). -/
inductive PyVal where
  | dictWithText (generated_text : String)
  | other (pyStr : String)
deriving DecidableEq

/-- The captioner's raw output value: a Python list, or any non-list value
(including `None`); the code's truthiness/`isinstance` guard sends every
non-list to the same "empty or None output" branch. -/
inductive CaptionsOutput where
  | list (items : List PyVal)
  | nonList
deriving DecidableEq

/-- Outcome of `Image.open(path).convert("RGB")`: `FileNotFoundError`, any
other exception (with its `str(e)`), or a returned value, which the code then
defensively tests against `None`. -/
inductive LoadResult (Img : Type) where
  | fileNotFound
  | exn (msg : String)
  | ok (img : Option Img)

/-- The environment of external collaborators the endpoint calls into. -/
structure Env (Img : Type) where
  isdir : String → Bool
  listdir : String → Except String (List String)
  loadImage : String → LoadResult Img
  abspath : String → String
  captioner : Option (Img → GenerationArgs → Except String CaptionsOutput)

/-- Python `str.lower`, character-wise. -/
def str_lower (s : String) : String := ⟨s.data.map Char.toLower⟩

/-- Python `str.endswith` for a single suffix. -/
def str_endsWith (s sfx : String) : Bool := sfx.data.isSuffixOf s.data

/-- Python `str.startswith` for a single prefix string. -/
def str_startsWith (s p : String) : Bool := p.data.isPrefixOf s.data

/-- Python `str.strip()`: drop surrounding whitespace. -/
def str_strip (s : String) : String :=
  ⟨((s.data.dropWhile Char.isWhitespace).reverse.dropWhile Char.isWhitespace).reverse⟩

/-- `os.path.join` for one path component (POSIX behaviour on the cases the
code exercises: an absolute second component replaces the first, otherwise a
separator is inserted unless one is already present). -/
def os_path_join (a b : String) : String :=
  if str_startsWith b "/" then b
  else if a = "" ∨ str_endsWith a "/" then a ++ b
  else a ++ "/" ++ b

/-- The filter predicate of line 128: `f.lower().endswith(SUPPORTED_EXTENSIONS)`. -/
def supportedExtension (f : String) : Bool :=
  SUPPORTED_EXTENSIONS.any (fun ext => str_endsWith (str_lower f) ext)

/-- `image_filenames` of line 128: the retained candidates of a listing. -/
def imageFilenamesOf (all_files_in_dir : List String) : List String :=
  all_files_in_dir.filter supportedExtension

/-- The fixed informational message returned when no candidate survives the
filter (line 132); the Python f-string renders `SUPPORTED_EXTENSIONS` as the
tuple literal reproduced here. -/
def no_images_found_message (folder_path : String) : String :=
  "No images with supported extensions (\x27.png\x27, \x27.jpg\x27, \x27.jpeg\x27, \x27.bmp\x27, \x27.gif\x27, \x27.webp\x27) found in the folder: "
    ++ folder_path

/-- The body of the per-candidate loop (lines 145–200): load the image, call
the captioner, validate the output shape; yields either the appended
`ImageCaptionResponseItem` or the string appended to `errors` (always of the
form `filename ++ ": " ++ msg`, mirroring `f"{filename}: {msg}"`). -/
def process_candidate {Img : Type}
    (cap : Img → GenerationArgs → Except String CaptionsOutput)
    (env : Env Img) (folder_path filename : String) :
    Except String ImageCaptionResponseItem :=
  let current_image_path_relative := os_path_join folder_path filename
  let current_image_path_absolute := env.abspath current_image_path_relative
  match env.loadImage current_image_path_relative with
  | .fileNotFound =>
      .error (filename ++ ": " ++
        ("Image file not found at \x27" ++ current_image_path_absolute ++ "\x27. Skipping."))
  | .exn e =>
      .error (filename ++ ": " ++
        ("An unexpected error occurred while loading image \x27" ++ filename ++ "\x27: "
          ++ e ++ ". Skipping."))
  | .ok none =>
      .error (filename ++ ": " ++
        ("Image object is None after attempting to load \x27" ++ filename ++ "\x27. Skipping."))
  | .ok (some img) =>
      match cap img GENERATION_ARGS with
      | .error e =>
          .error (filename ++ ": " ++
            ("An error occurred during caption generation for \x27" ++ filename ++ "\x27: "
              ++ e ++ "."))
      | .ok captions_output =>
          match captions_output with
          | .list (first_result :: _) =>
              match first_result with
              | .dictWithText generated_text =>
                  .ok { image_path := current_image_path_absolute,
                        description := str_strip generated_text }
              | .other pyStr =>
                  .error (filename ++ ": " ++
                    ("Caption output format unexpected for \x27" ++ filename
                      ++ "\x27. First element: " ++ pyStr ++ ". Skipping."))
          | .list [] =>
              .error (filename ++ ": " ++
                ("Captioner returned empty or None output for \x27" ++ filename
                  ++ "\x27. Skipping."))
          | .nonList =>
              .error (filename ++ ": " ++
                ("Captioner returned empty or None output for \x27" ++ filename
                  ++ "\x27. Skipping."))

/-- The `for filename in image_filenames` loop: accumulates `results` and
`errors` in iteration order. -/
def run_loop {Img : Type}
    (cap : Img → GenerationArgs → Except String CaptionsOutput)
    (env : Env Img) (folder_path : String) :
    List String → List ImageCaptionResponseItem × List String
  | [] => ([], [])
  | filename :: rest =>
    match process_candidate cap env folder_path filename with
    | .ok item =>
        let r := run_loop cap env folder_path rest
        (item :: r.1, r.2)
    | .error e =>
        let r := run_loop cap env folder_path rest
        (r.1, e :: r.2)

/-- The "all N succeeded" message (line 206). -/
def all_succeeded_message (n : Nat) : String :=
  "Successfully generated captions for all " ++ toString n ++ " found image(s)."

/-- The "M of N succeeded, see errors" message (line 208). -/
def some_succeeded_message (m n : Nat) : String :=
  "Generated captions for " ++ toString m ++ " out of " ++ toString n
    ++ " found image(s). See errors for details on failures."

/-- The "attempted N, none succeeded, see errors" message (line 210). -/
def none_succeeded_message (n : Nat) : String :=
  "Attempted to process " ++ toString n
    ++ " image(s), but no captions were successfully generated. See errors for details."

/-- The defensive fallback message of line 212 (its branch comment notes it is
covered by the earlier zero-candidates check). -/
def fallback_message : String := "No images were processed or found."

/-- The warning clause appended by the discrepancy guard (line 216). -/
def silent_failure_warning : String :=
  " Some images may have failed processing without explicit error messages being captured in the error list."

/-- The summary-message derivation of lines 204–219, a pure function of the
total, the success count, and the error list. -/
def summary_message (total_images_found successfully_captioned_count : Nat)
    (errors : List String) : String :=
  let message :=
    if successfully_captioned_count = total_images_found ∧ total_images_found > 0 then
      all_succeeded_message total_images_found
    else if successfully_captioned_count > 0 then
      some_succeeded_message successfully_captioned_count total_images_found
    else if total_images_found > 0 ∧ successfully_captioned_count = 0 then
      none_succeeded_message total_images_found
    else
      fallback_message
  if errors.isEmpty ∧ successfully_captioned_count < total_images_found
      ∧ total_images_found > 0 then
    message ++ silent_failure_warning
  else
    message

/-- The endpoint `create_captions_for_images_in_folder` (lines 89–227). -/
def create_captions_for_images_in_folder {Img : Type} (env : Env Img)
    (request : ImageCaptionRequest) : Except HTTPError CaptionSummaryResponse :=
  match env.captioner with
  | none => .error (.e503 "Captioning service is unavailable. Model not loaded.")
  | some cap =>
    let folder_path := request.folder_location
    if env.isdir folder_path = false then
      .error (.e400 ("The folder \x27" ++ folder_path
        ++ "\x27 does not exist or is not a directory."))
    else
      match env.listdir folder_path with
      | .error _ =>
          .error (.e500 ("Could not read directory contents: " ++ folder_path))
      | .ok all_files_in_dir =>
          let image_filenames := imageFilenamesOf all_files_in_dir
          let total_images_found := image_filenames.length
          if total_images_found = 0 then
            .ok { total_images_found := 0, successfully_captioned := 0, results := [],
                  message := no_images_found_message folder_path, errors := [] }
          else
            let outcome := run_loop cap env folder_path image_filenames
            let results := outcome.1
            let errors := outcome.2
            let successfully_captioned_count := results.length
            .ok { total_images_found := total_images_found,
                  successfully_captioned := successfully_captioned_count,
                  results := results,
                  message := summary_message total_images_found
                    successfully_captioned_count errors,
                  errors := errors }

/-- The error component of an `Except`, as an `Option`. -/
def errOpt {ε α : Type} : Except ε α → Option ε
  | .error e => some e
  | .ok _ => none

instance {ε α : Type} [DecidableEq ε] [DecidableEq α] :
    DecidableEq (Except ε α) := fun a b =>
  match a, b with
  | .ok x, .ok y =>
      if h : x = y then .isTrue (by rw [h])
      else .isFalse (fun hc => h (by injection hc))
  | .error x, .error y =>
      if h : x = y then .isTrue (by rw [h])
      else .isFalse (fun hc => h (by injection hc))
  | .ok _, .error _ => .isFalse (fun hc => Except.noConfusion hc)
  | .error _, .ok _ => .isFalse (fun hc => Except.noConfusion hc)

/-- The results the loop produces over candidate list `l`, in order. -/
def loopResults {Img : Type}
    (cap : Img → GenerationArgs → Except String CaptionsOutput)
    (env : Env Img) (fp : String) (l : List String) :
    List ImageCaptionResponseItem :=
  l.filterMap (fun f => (process_candidate cap env fp f).toOption)

/-- The error strings the loop produces over candidate list `l`, in order. -/
def loopErrors {Img : Type}
    (cap : Img → GenerationArgs → Except String CaptionsOutput)
    (env : Env Img) (fp : String) (l : List String) : List String :=
  l.filterMap (fun f => errOpt (process_candidate cap env fp f))

/-- The response the endpoint assembles after the loop ran over `l`. -/
def loopResponse {Img : Type}
    (cap : Img → GenerationArgs → Except String CaptionsOutput)
    (env : Env Img) (fp : String) (l : List String) : CaptionSummaryResponse :=
  { total_images_found := l.length,
    successfully_captioned := (loopResults cap env fp l).length,
    results := loopResults cap env fp l,
    message := summary_message l.length (loopResults cap env fp l).length
      (loopErrors cap env fp l),
    errors := loopErrors cap env fp l }

/-- The response returned when no candidate survives the filter. -/
def emptyResponse (folder_path : String) : CaptionSummaryResponse :=
  { total_images_found := 0, successfully_captioned := 0, results := [],
    message := no_images_found_message folder_path, errors := [] }

/-- Whether a request outcome is the InvalidInput rejection (HTTP 400). -/
def isInvalidInput : Except HTTPError CaptionSummaryResponse → Bool
  | .error (.e400 _) => true
  | _ => false

/-! ## Concrete environments used to witness the theorems (`Img := Unit`) -/

/-- A filesystem where every path is a directory. -/
def fsIsdirAll : String → Bool := fun _ => true

/-- A filesystem where no path is a directory. -/
def fsIsdirNone : String → Bool := fun _ => false

/-- A listing with one supported image and one non-image entry. -/
def fsListdirOne : String → Except String (List String) :=
  fun _ => .ok ["a.jpg", "notes.txt"]

/-- A listing with no supported image. -/
def fsListdirNoImages : String → Except String (List String) :=
  fun _ => .ok ["notes.txt"]

/-- A listing with three supported images. -/
def fsListdirIso : String → Except String (List String) :=
  fun _ => .ok ["a.jpg", "bad.png", "c.gif"]

/-- An image loader that always succeeds. -/
def fsLoadOk : String → LoadResult Unit := fun _ => .ok (some ())

/-- An image loader that raises on one specific path. -/
def fsLoadBad : String → LoadResult Unit :=
  fun p => if p = "/d/bad.png" then .exn "broken" else .ok (some ())

/-- An `os.path.abspath` stand-in. -/
def fsAbsPrefix : String → String := fun s => "/abs" ++ s

/-- A captioner that always returns a well-formed output. -/
def capGood : Unit → GenerationArgs → Except String CaptionsOutput :=
  fun _ _ => .ok (.list [.dictWithText " a cat "])

/-- A captioner that always raises. -/
def capBoom : Unit → GenerationArgs → Except String CaptionsOutput :=
  fun _ _ => .error "boom"

/-- Ready engine, one good candidate. -/
def envReady : Env Unit :=
  { isdir := fsIsdirAll, listdir := fsListdirOne, loadImage := fsLoadOk,
    abspath := fsAbsPrefix, captioner := some capGood }

/-- Engine not initialized. -/
def envDown : Env Unit :=
  { isdir := fsIsdirAll, listdir := fsListdirOne, loadImage := fsLoadOk,
    abspath := fsAbsPrefix, captioner := none }

/-- Engine not initialized and the path is not a directory. -/
def envDownNoDir : Env Unit :=
  { isdir := fsIsdirNone, listdir := fsListdirOne, loadImage := fsLoadOk,
    abspath := fsAbsPrefix, captioner := none }

/-- Engine not initialized, existing directory with no supported image. -/
def envDownEmptyDir : Env Unit :=
  { isdir := fsIsdirAll, listdir := fsListdirNoImages, loadImage := fsLoadOk,
    abspath := fsAbsPrefix, captioner := none }

/-- Ready engine, the path is not a directory. -/
def envReadyNoDir : Env Unit :=
  { isdir := fsIsdirNone, listdir := fsListdirOne, loadImage := fsLoadOk,
    abspath := fsAbsPrefix, captioner := some capGood }

/-- Ready engine, existing directory with no supported image. -/
def envReadyEmptyDir : Env Unit :=
  { isdir := fsIsdirAll, listdir := fsListdirNoImages, loadImage := fsLoadOk,
    abspath := fsAbsPrefix, captioner := some capGood }

/-- Same filesystem as `envReady` but with a raising captioner. -/
def envReadyBoom : Env Unit :=
  { isdir := fsIsdirAll, listdir := fsListdirOne, loadImage := fsLoadOk,
    abspath := fsAbsPrefix, captioner := some capBoom }

/-- Ready engine; three candidates, the middle one fails to load. -/
def envIso : Env Unit :=
  { isdir := fsIsdirAll, listdir := fsListdirIso, loadImage := fsLoadBad,
    abspath := fsAbsPrefix, captioner := some capGood }

/-- The response `envReady` yields for folder `/d`. -/
def respOneGood : CaptionSummaryResponse :=
  { total_images_found := 1, successfully_captioned := 1,
    results := [{ image_path := "/abs/d/a.jpg", description := "a cat" }],
    message := all_succeeded_message 1, errors := [] }

/-- The error string `envIso` records for `bad.png`. -/
def isoErrorString : String :=
  "bad.png: An unexpected error occurred while loading image \x27bad.png\x27: broken. Skipping."

/-- The response `envIso` yields for folder `/d`. -/
def respIso : CaptionSummaryResponse :=
  { total_images_found := 3, successfully_captioned := 2,
    results := [{ image_path := "/abs/d/a.jpg", description := "a cat" },
                { image_path := "/abs/d/c.gif", description := "a cat" }],
    message := some_succeeded_message 2 3,
    errors := [isoErrorString] }

/-! ## Helper lemmas about the loop and the per-candidate outcome -/

theorem run_loop_eq {Img : Type}
    (cap : Img → GenerationArgs → Except String CaptionsOutput)
    (env : Env Img) (fp : String) (l : List String) :
    run_loop cap env fp l =
      (l.filterMap (fun f => (process_candidate cap env fp f).toOption),
       l.filterMap (fun f => errOpt (process_candidate cap env fp f))) := by
  induction l with
  | nil => rfl
  | cons a rest ih =>
    cases h : process_candidate cap env fp a with
    | ok item => simp [run_loop, List.filterMap_cons, h, ih, Except.toOption, errOpt]
    | error e => simp [run_loop, List.filterMap_cons, h, ih, Except.toOption, errOpt]

theorem filterMap_toOption_errOpt_length {α ε β : Type} (g : α → Except ε β)
    (l : List α) :
    (l.filterMap (fun a => (g a).toOption)).length
      + (l.filterMap (fun a => errOpt (g a))).length = l.length := by
  induction l with
  | nil => rfl
  | cons a rest ih =>
    cases h : g a <;>
      simp [List.filterMap_cons, h, Except.toOption, errOpt] at ih ⊢ <;> omega

theorem filterMap_errOpt_eq_nil_of_ok {α ε β : Type} (g : α → Except ε β)
    (l : List α) (h : ∀ a ∈ l, (g a).isOk = true) :
    l.filterMap (fun a => errOpt (g a)) = [] := by
  induction l with
  | nil => rfl
  | cons a rest ih =>
    have ha := h a (List.mem_cons_self a rest)
    have ihr := ih (fun x hx => h x (List.mem_cons_of_mem a hx))
    cases hg : g a with
    | ok b =>
        simp only [List.filterMap_cons, hg, errOpt]
        exact ihr
    | error e => rw [hg] at ha; cases ha

theorem filterMap_toOption_length_of_ok {α ε β : Type} (g : α → Except ε β)
    (l : List α) (h : ∀ a ∈ l, (g a).isOk = true) :
    (l.filterMap (fun a => (g a).toOption)).length = l.length := by
  have h2 := filterMap_toOption_errOpt_length g l
  rw [filterMap_errOpt_eq_nil_of_ok g l h] at h2
  simpa using h2

/-- Every string the loop appends to `errors` is `filename ++ ": " ++ msg`. -/
theorem process_candidate_error_shape {Img : Type}
    (cap : Img → GenerationArgs → Except String CaptionsOutput)
    (env : Env Img) (fp fn e : String)
    (h : process_candidate cap env fp fn = .error e) :
    ∃ m, e = fn ++ ": " ++ m := by
  simp only [process_candidate] at h
  repeat' split at h
  all_goals try cases h
  all_goals exact ⟨_, rfl⟩

/-- Every appended `CaptionResult` carries the absolute path of its candidate. -/
theorem process_candidate_ok_abspath {Img : Type}
    (cap : Img → GenerationArgs → Except String CaptionsOutput)
    (env : Env Img) (fp fn : String) (item : ImageCaptionResponseItem)
    (h : process_candidate cap env fp fn = .ok item) :
    item.image_path = env.abspath (os_path_join fp fn) := by
  simp only [process_candidate] at h
  repeat' split at h
  all_goals try cases h
  all_goals rfl

/-- Evaluation of the endpoint when the captioner handle is `None`. -/
theorem create_none_eq {Img : Type} (env : Env Img)
    (request : ImageCaptionRequest)
    (hcap : env.captioner = none) :
    create_captions_for_images_in_folder env request =
      .error (.e503 "Captioning service is unavailable. Model not loaded.") := by
  simp only [create_captions_for_images_in_folder, hcap]

/-- Evaluation of the endpoint when the path is not a directory. -/
theorem create_notdir_eq {Img : Type} (env : Env Img)
    (cap : Img → GenerationArgs → Except String CaptionsOutput)
    (request : ImageCaptionRequest)
    (hcap : env.captioner = some cap)
    (hdir : env.isdir request.folder_location = false) :
    create_captions_for_images_in_folder env request =
      .error (.e400 ("The folder \x27" ++ request.folder_location
        ++ "\x27 does not exist or is not a directory.")) := by
  simp only [create_captions_for_images_in_folder, hcap, hdir, if_true]

/-- Evaluation of the endpoint when listing the directory fails. -/
theorem create_listdir_err_eq {Img : Type} (env : Env Img)
    (cap : Img → GenerationArgs → Except String CaptionsOutput)
    (request : ImageCaptionRequest) (e : String)
    (hcap : env.captioner = some cap)
    (hdir : env.isdir request.folder_location = true)
    (hls : env.listdir request.folder_location = .error e) :
    create_captions_for_images_in_folder env request =
      .error (.e500 ("Could not read directory contents: "
        ++ request.folder_location)) := by
  simp only [create_captions_for_images_in_folder, hcap, hdir, hls,
    Bool.true_eq_false, if_false]

/-- Evaluation of the endpoint on the loop path. -/
theorem create_loop_eq {Img : Type} (env : Env Img)
    (cap : Img → GenerationArgs → Except String CaptionsOutput)
    (request : ImageCaptionRequest) (all_files : List String)
    (hcap : env.captioner = some cap)
    (hdir : env.isdir request.folder_location = true)
    (hls : env.listdir request.folder_location = .ok all_files)
    (hne : imageFilenamesOf all_files ≠ []) :
    create_captions_for_images_in_folder env request =
      .ok (loopResponse cap env request.folder_location
        (imageFilenamesOf all_files)) := by
  have hlen : ¬ (imageFilenamesOf all_files).length = 0 := by
    simpa [List.length_eq_zero] using hne
  simp only [create_captions_for_images_in_folder, hcap, hdir, hls, hlen,
    Bool.true_eq_false, if_false, if_neg hlen, run_loop_eq]
  rfl

/-- Evaluation of the endpoint on the no-candidates path. -/
theorem create_empty_eq {Img : Type} (env : Env Img)
    (cap : Img → GenerationArgs → Except String CaptionsOutput)
    (request : ImageCaptionRequest) (all_files : List String)
    (hcap : env.captioner = some cap)
    (hdir : env.isdir request.folder_location = true)
    (hls : env.listdir request.folder_location = .ok all_files)
    (he : imageFilenamesOf all_files = []) :
    create_captions_for_images_in_folder env request =
      .ok (emptyResponse request.folder_location) := by
  simp only [create_captions_for_images_in_folder, hcap, hdir, hls, he,
    Bool.true_eq_false, if_false, List.length_nil, if_pos rfl]
  rfl

/-- Inversion: every `.ok` response came from the no-candidates path or from
the loop path, and has the corresponding shape. -/
theorem create_ok_cases {Img : Type} (env : Env Img)
    (request : ImageCaptionRequest) (resp : CaptionSummaryResponse)
    (h : create_captions_for_images_in_folder env request = .ok resp) :
    (∃ all_files, env.listdir request.folder_location = .ok all_files ∧
      imageFilenamesOf all_files = [] ∧
      resp = emptyResponse request.folder_location) ∨
    (∃ cap all_files, env.captioner = some cap ∧
      env.listdir request.folder_location = .ok all_files ∧
      imageFilenamesOf all_files ≠ [] ∧
      resp = loopResponse cap env request.folder_location
        (imageFilenamesOf all_files)) := by
  cases hcap : env.captioner with
  | none => rw [create_none_eq env request hcap] at h; cases h
  | some cap =>
    cases hdir : env.isdir request.folder_location with
    | false => rw [create_notdir_eq env cap request hcap hdir] at h; cases h
    | true =>
      cases hls : env.listdir request.folder_location with
      | error e =>
          rw [create_listdir_err_eq env cap request e hcap hdir hls] at h
          cases h
      | ok all_files =>
          by_cases hz : imageFilenamesOf all_files = []
          · rw [create_empty_eq env cap request all_files hcap hdir hls hz] at h
            injection h with h2
            exact .inl ⟨all_files, rfl, hz, h2.symm⟩
          · rw [create_loop_eq env cap request all_files hcap hdir hls hz] at h
            injection h with h2
            exact .inr ⟨cap, all_files, rfl, rfl, hz, h2.symm⟩

/-- Inversion for `Except.toOption`. -/
theorem toOption_eq_some {ε α : Type} {x : Except ε α} {a : α}
    (h : x.toOption = some a) : x = .ok a := by
  cases x with
  | ok b => simp only [Except.toOption] at h; rw [Option.some.injEq] at h; rw [h]
  | error e => simp [Except.toOption] at h

/-- Inversion for `errOpt`. -/
theorem errOpt_eq_some {ε α : Type} {x : Except ε α} {e : ε}
    (h : errOpt x = some e) : x = .error e := by
  cases x with
  | ok b => simp [errOpt] at h
  | error e2 => simp only [errOpt] at h; rw [Option.some.injEq] at h; rw [h]


/-- Unfolding of `summary_message` as a base form plus an optional warning. -/
theorem summary_message_eq (total m : Nat) (errors : List String) :
    summary_message total m errors =
      (if m = total ∧ total > 0 then all_succeeded_message total
       else if m > 0 then some_succeeded_message m total
       else if total > 0 ∧ m = 0 then none_succeeded_message total
       else fallback_message)
      ++ (if errors.isEmpty ∧ m < total ∧ total > 0 then silent_failure_warning
          else "") := by
  simp only [summary_message]
  by_cases hW : errors.isEmpty = true ∧ m < total ∧ total > 0
  · rw [if_pos hW, if_pos hW]
  · rw [if_neg hW, if_neg hW, String.append_empty]

/-- With a positive total, `summary_message` follows the spec's rule order. -/
theorem summary_message_cases (total m : Nat) (errors : List String)
    (hpos : 0 < total) :
    summary_message total m errors =
      (if m = total then all_succeeded_message total
       else if 0 < m then some_succeeded_message m total
       else none_succeeded_message total)
      ++ (if errors.isEmpty ∧ m < total then silent_failure_warning else "") := by
  rw [summary_message_eq]
  congr 1
  · split_ifs <;> first | rfl | omega
  · apply if_congr _ rfl rfl
    constructor
    · rintro ⟨a, b, _⟩; exact ⟨a, b⟩
    · rintro ⟨a, b⟩; exact ⟨a, b, hpos⟩

/-- Membership in the retained-candidate list, spelled out: the entry was in
the listing and its lowercased name ends with one of the fixed extensions. -/
theorem mem_imageFilenamesOf (all_files : List String) (f : String) :
    f ∈ imageFilenamesOf all_files ↔
      f ∈ all_files ∧ ∃ ext ∈ SUPPORTED_EXTENSIONS,
        str_endsWith (str_lower f) ext = true := by
  simp [imageFilenamesOf, List.mem_filter, supportedExtension, List.any_eq_true]

/-! ## Claim theorems -/

/-- Claim C7: for every request made while the Caption Engine is not Ready
(the `captioner` handle is `None`), the request fails immediately with the
503 ServiceUnavailable error regardless of the directory's contents — the
result is the same for every `isdir`/`listdir`/`loadImage`/`abspath`, so no
directory check, scanning or per-item work can influence it, and no
`CaptionSummaryResponse` is produced. -/
theorem engine_unavailable_rejects {Img : Type} (env : Env Img)
    (request : ImageCaptionRequest)
    (h : env.captioner = none) :
    create_captions_for_images_in_folder env request =
      .error (.e503 "Captioning service is unavailable. Model not loaded.") :=
  create_none_eq env request h

/-- Witness for C7: the concrete down-engine environment is rejected. -/
theorem engine_unavailable_rejects_witness :
    create_captions_for_images_in_folder envDown ⟨"/pics"⟩ =
      .error (.e503 "Captioning service is unavailable. Model not loaded.") :=
  engine_unavailable_rejects envDown ⟨"/pics"⟩ rfl

/-- Counterexample to claim C8 as stated: with the engine not Ready and a
non-directory path, the request is rejected with the 503 ServiceUnavailable
error, not with the 400 InvalidInput error the claim promises for every
request whose `folder_location` is not an existing directory. -/
theorem invalid_dir_engine_down_counterexample :
    envDownNoDir.isdir "/nope" = false ∧
    create_captions_for_images_in_folder envDownNoDir ⟨"/nope"⟩ =
      .error (.e503 "Captioning service is unavailable. Model not loaded.") ∧
    isInvalidInput (create_captions_for_images_in_folder envDownNoDir ⟨"/nope"⟩)
      = false := by
  refine ⟨rfl, rfl, rfl⟩

/-- Claim C8 (amended): for every request made while the Caption Engine is
Ready whose `folder_location` does not reference an existing directory, the
request fails with the 400 InvalidInput error and no report body is
produced. -/
theorem invalid_dir_rejects_when_ready {Img : Type} (env : Env Img)
    (cap : Img → GenerationArgs → Except String CaptionsOutput)
    (request : ImageCaptionRequest)
    (hcap : env.captioner = some cap)
    (hdir : env.isdir request.folder_location = false) :
    create_captions_for_images_in_folder env request =
      .error (.e400 ("The folder \x27" ++ request.folder_location
        ++ "\x27 does not exist or is not a directory.")) :=
  create_notdir_eq env cap request hcap hdir

/-- Witness for C8 (amended): a Ready engine with a non-directory path. -/
theorem invalid_dir_rejects_when_ready_witness :
    create_captions_for_images_in_folder envReadyNoDir ⟨"/nope"⟩ =
      .error (.e400 ("The folder \x27" ++ "/nope"
        ++ "\x27 does not exist or is not a directory.")) :=
  invalid_dir_rejects_when_ready envReadyNoDir capGood ⟨"/nope"⟩ rfl rfl

/-- Counterexample to claim C6 as stated: an existing directory with zero
candidates after filtering does not guarantee a successful report — with the
engine not Ready the same request is rejected with the 503 error and no
report is produced. -/
theorem empty_dir_engine_down_counterexample :
    envDownEmptyDir.isdir "/pics" = true ∧
    envDownEmptyDir.listdir "/pics" = .ok ["notes.txt"] ∧
    imageFilenamesOf ["notes.txt"] = [] ∧
    (create_captions_for_images_in_folder envDownEmptyDir ⟨"/pics"⟩).isOk
      = false ∧
    create_captions_for_images_in_folder envDownEmptyDir ⟨"/pics"⟩ =
      .error (.e503 "Captioning service is unavailable. Model not loaded.") := by
  refine ⟨rfl, rfl, by decide, rfl, rfl⟩

/-- Claim C6 (amended): for every request made while the Caption Engine is
Ready, against an existing directory whose listing succeeds and retains zero
candidates after filtering, the request succeeds and returns the report with
`total_images_found = 0`, `successfully_captioned = 0`, empty results, empty
errors, and the fixed "no images found" informational message. -/
theorem empty_dir_success_when_ready {Img : Type} (env : Env Img)
    (cap : Img → GenerationArgs → Except String CaptionsOutput)
    (request : ImageCaptionRequest) (all_files : List String)
    (hcap : env.captioner = some cap)
    (hdir : env.isdir request.folder_location = true)
    (hls : env.listdir request.folder_location = .ok all_files)
    (he : imageFilenamesOf all_files = []) :
    create_captions_for_images_in_folder env request =
      .ok { total_images_found := 0, successfully_captioned := 0, results := [],
            message := no_images_found_message request.folder_location,
            errors := [] } :=
  create_empty_eq env cap request all_files hcap hdir hls he

/-- Witness for C6 (amended): a Ready engine over a directory holding only a
non-image file. -/
theorem empty_dir_success_when_ready_witness :
    create_captions_for_images_in_folder envReadyEmptyDir ⟨"/pics"⟩ =
      .ok { total_images_found := 0, successfully_captioned := 0, results := [],
            message := no_images_found_message "/pics", errors := [] } :=
  empty_dir_success_when_ready envReadyEmptyDir capGood ⟨"/pics"⟩ ["notes.txt"]
    rfl rfl rfl (by decide)

/-- Claim C2: every request that returns a `CaptionSummaryResponse` (no
batch-fatal error) satisfies `successfully_captioned = len(results)` and
`len(results) + len(errors) ≤ total_images_found`. -/
theorem report_count_invariants {Img : Type} (env : Env Img)
    (request : ImageCaptionRequest) (resp : CaptionSummaryResponse)
    (h : create_captions_for_images_in_folder env request = .ok resp) :
    resp.successfully_captioned = resp.results.length ∧
    resp.results.length + resp.errors.length ≤ resp.total_images_found := by
  rcases create_ok_cases env request resp h with ⟨_, _, _, h1⟩ | ⟨cap, all_files, _, _, _, h2⟩
  · subst h1; exact ⟨rfl, Nat.le_refl 0⟩
  · subst h2
    exact ⟨rfl, Nat.le_of_eq (filterMap_toOption_errOpt_length
      (fun f => process_candidate cap env request.folder_location f)
      (imageFilenamesOf all_files))⟩

/-- Witness for C2: the invariants hold on the concrete one-image report. -/
theorem report_count_invariants_witness :
    respOneGood.successfully_captioned = respOneGood.results.length ∧
    respOneGood.results.length + respOneGood.errors.length
      ≤ respOneGood.total_images_found :=
  report_count_invariants envReady ⟨"/d"⟩ respOneGood (by decide)

/-- Claim C10: every iteration of the per-candidate loop contributes exactly
one entry, so every returned report satisfies
`len(results) + len(errors) = total_images_found` exactly, and the
discrepancy-guard condition (empty errors with fewer results than total) is
unreachable. -/
theorem loop_exact_accounting {Img : Type} (env : Env Img)
    (request : ImageCaptionRequest) (resp : CaptionSummaryResponse)
    (h : create_captions_for_images_in_folder env request = .ok resp) :
    resp.results.length + resp.errors.length = resp.total_images_found ∧
    ¬ (resp.errors = [] ∧ resp.results.length < resp.total_images_found) := by
  rcases create_ok_cases env request resp h with ⟨_, _, _, h1⟩ | ⟨cap, all_files, _, _, _, h2⟩
  · subst h1
    exact ⟨rfl, by simp [emptyResponse]⟩
  · subst h2
    have h3 := filterMap_toOption_errOpt_length
      (fun f => process_candidate cap env request.folder_location f)
      (imageFilenamesOf all_files)
    simp only [loopResponse, loopResults, loopErrors]
    refine ⟨h3, ?_⟩
    rintro ⟨he, hlt⟩
    rw [he] at h3
    simp only [List.length_nil, Nat.add_zero] at h3
    omega

/-- Witness for C10: exact accounting on the concrete one-image report. -/
theorem loop_exact_accounting_witness :
    respOneGood.results.length + respOneGood.errors.length
      = respOneGood.total_images_found ∧
    ¬ (respOneGood.errors = [] ∧
        respOneGood.results.length < respOneGood.total_images_found) :=
  loop_exact_accounting envReady ⟨"/d"⟩ respOneGood (by decide)

/-- Claim C3: for every returned report with a positive total, the message is
the "all N", "M of N", or "attempted N, none succeeded" form selected in that
order by comparing `len(results)` with `total_found`, with the warning clause
appended exactly when `errors` is empty while `len(results) < total_found`. -/
theorem summary_message_selection {Img : Type} (env : Env Img)
    (request : ImageCaptionRequest) (resp : CaptionSummaryResponse)
    (h : create_captions_for_images_in_folder env request = .ok resp)
    (hpos : 0 < resp.total_images_found) :
    resp.message =
      (if resp.results.length = resp.total_images_found then
        all_succeeded_message resp.total_images_found
      else if 0 < resp.results.length then
        some_succeeded_message resp.results.length resp.total_images_found
      else none_succeeded_message resp.total_images_found)
      ++ (if resp.errors.isEmpty ∧ resp.results.length < resp.total_images_found
          then silent_failure_warning else "") := by
  rcases create_ok_cases env request resp h with ⟨_, _, _, h1⟩ | ⟨cap, all_files, _, _, _, h2⟩
  · subst h1; simp [emptyResponse] at hpos
  · subst h2
    simp only [loopResponse] at hpos ⊢
    exact summary_message_cases _ _ _ hpos

/-- Witness for C3: the concrete one-image report carries the "all 1" form
with no warning clause. -/
theorem summary_message_selection_witness :
    respOneGood.message =
      (if respOneGood.results.length = respOneGood.total_images_found then
        all_succeeded_message respOneGood.total_images_found
      else if 0 < respOneGood.results.length then
        some_succeeded_message respOneGood.results.length
          respOneGood.total_images_found
      else none_succeeded_message respOneGood.total_images_found)
      ++ (if respOneGood.errors.isEmpty ∧
            respOneGood.results.length < respOneGood.total_images_found
          then silent_failure_warning else "") :=
  summary_message_selection envReady ⟨"/d"⟩ respOneGood (by decide) (by decide)

/-- Claim C4: a directory entry is retained as a candidate if and only if its
lowercased name ends with one of the six fixed extensions; every other entry
contributes nothing to `total_images_found`, and every result and every error
of the returned report stems from a retained candidate. -/
theorem extension_filtering {Img : Type} (env : Env Img)
    (cap : Img → GenerationArgs → Except String CaptionsOutput)
    (request : ImageCaptionRequest) (all_files : List String)
    (resp : CaptionSummaryResponse)
    (hcap : env.captioner = some cap)
    (hdir : env.isdir request.folder_location = true)
    (hls : env.listdir request.folder_location = .ok all_files)
    (h : create_captions_for_images_in_folder env request = .ok resp) :
    (∀ f, f ∈ imageFilenamesOf all_files ↔
       f ∈ all_files ∧ ∃ ext ∈ SUPPORTED_EXTENSIONS,
         str_endsWith (str_lower f) ext = true) ∧
    resp.total_images_found = (imageFilenamesOf all_files).length ∧
    (∀ r ∈ resp.results, ∃ fname ∈ imageFilenamesOf all_files,
        r.image_path = env.abspath (os_path_join request.folder_location fname)) ∧
    (∀ e ∈ resp.errors, ∃ fname ∈ imageFilenamesOf all_files, ∃ m,
        e = fname ++ ": " ++ m) := by
  refine ⟨fun f => mem_imageFilenamesOf all_files f, ?_⟩
  rcases create_ok_cases env request resp h with
    ⟨af2, hls2, hz2, h1⟩ | ⟨cap2, af2, hcap2, hls2, hne2, h2⟩
  · rw [hls] at hls2
    injection hls2 with haf
    subst haf
    subst h1
    refine ⟨by rw [hz2]; rfl, ?_, ?_⟩
    · intro r hr; cases hr
    · intro e he; cases he
  · rw [hls] at hls2
    injection hls2 with haf
    subst haf
    subst h2
    refine ⟨rfl, ?_, ?_⟩
    · intro r hr
      simp only [loopResponse, loopResults] at hr
      rcases List.mem_filterMap.mp hr with ⟨fname, hmem, hsome⟩
      exact ⟨fname, hmem,
        process_candidate_ok_abspath cap2 env request.folder_location fname r
          (toOption_eq_some hsome)⟩
    · intro e he
      simp only [loopResponse, loopErrors] at he
      rcases List.mem_filterMap.mp he with ⟨fname, hmem, hsome⟩
      exact ⟨fname, hmem,
        process_candidate_error_shape cap2 env request.folder_location fname e
          (errOpt_eq_some hsome)⟩

/-- Witness for C4: the one-image report counts exactly the retained list. -/
theorem extension_filtering_witness :
    respOneGood.total_images_found
      = (imageFilenamesOf ["a.jpg", "notes.txt"]).length :=
  (extension_filtering envReady capGood ⟨"/d"⟩ ["a.jpg", "notes.txt"]
    respOneGood rfl rfl rfl (by decide)).2.1

/-- Claim C5: for a candidate whose image loaded and whose caption call
succeeded, a well-formed output (non-empty list whose first element carries
the text field) yields a `CaptionResult` with the absolute path and the
whitespace-trimmed text, while every other output shape (non-list, empty
list, or first element without the text field) is recorded as this
candidate's error string, not as a batch-fatal failure. -/
theorem caption_output_validation {Img : Type}
    (cap : Img → GenerationArgs → Except String CaptionsOutput)
    (env : Env Img) (folder_path filename : String) (img : Img)
    (out : CaptionsOutput)
    (hload : env.loadImage (os_path_join folder_path filename) = .ok (some img))
    (hout : cap img GENERATION_ARGS = .ok out) :
    (∀ text rest, out = .list (.dictWithText text :: rest) →
       process_candidate cap env folder_path filename =
         .ok { image_path := env.abspath (os_path_join folder_path filename),
               description := str_strip text }) ∧
    ((∀ text rest, out ≠ .list (.dictWithText text :: rest)) →
       ∃ m, process_candidate cap env folder_path filename =
         .error (filename ++ ": " ++ m)) := by
  constructor
  · rintro text rest rfl
    simp [process_candidate, hload, hout]
  · intro hshape
    cases out with
    | nonList =>
        exact ⟨"Captioner returned empty or None output for \x27" ++ filename
            ++ "\x27. Skipping.",
          by simp [process_candidate, hload, hout]⟩
    | list items =>
        cases items with
        | nil =>
            exact ⟨"Captioner returned empty or None output for \x27" ++ filename
                ++ "\x27. Skipping.",
              by simp [process_candidate, hload, hout]⟩
        | cons first_result rest =>
            cases first_result with
            | dictWithText t => exact absurd rfl (hshape t rest)
            | other s =>
                exact ⟨"Caption output format unexpected for \x27" ++ filename
                    ++ "\x27. First element: " ++ s ++ ". Skipping.",
                  by simp [process_candidate, hload, hout]⟩

/-- Witness for C5: a well-formed output on the concrete environment yields
the trimmed caption at the absolute path. -/
theorem caption_output_validation_witness :
    process_candidate capGood envReady "/d" "a.jpg" =
      .ok { image_path := "/abs/d/a.jpg", description := "a cat" } :=
  ((caption_output_validation capGood envReady "/d" "a.jpg" ()
      (.list [.dictWithText " a cat "]) rfl rfl).1 " a cat " [] rfl).trans
    (by decide)

/-- Claim C1: with the engine Ready and a listed directory, if exactly one
candidate `x` of the retained list `l1 ++ x :: l2` fails (its per-candidate
outcome is an error) and every other candidate succeeds, the batch is not
aborted: the endpoint returns a report whose `errors` is exactly the one
error string of `x` (prefixed by its filename), and whose `results` are the
`N - 1` results of the other candidates in their original relative order. -/
theorem failure_isolation_single_failure {Img : Type} (env : Env Img)
    (cap : Img → GenerationArgs → Except String CaptionsOutput)
    (request : ImageCaptionRequest) (all_files l1 l2 : List String)
    (x e : String)
    (hcap : env.captioner = some cap)
    (hdir : env.isdir request.folder_location = true)
    (hls : env.listdir request.folder_location = .ok all_files)
    (hfiles : imageFilenamesOf all_files = l1 ++ x :: l2)
    (hx : process_candidate cap env request.folder_location x = .error e)
    (hok : ∀ f ∈ l1 ++ l2,
      (process_candidate cap env request.folder_location f).isOk = true) :
    ∃ resp, create_captions_for_images_in_folder env request = .ok resp ∧
      resp.errors = [e] ∧
      (∃ m, e = x ++ ": " ++ m) ∧
      resp.results.length = l1.length + l2.length ∧
      resp.results = (l1 ++ l2).filterMap
        (fun f => (process_candidate cap env request.folder_location f).toOption) := by
  have hne : imageFilenamesOf all_files ≠ [] := by
    rw [hfiles]; simp
  have hokl1 : ∀ f ∈ l1,
      (process_candidate cap env request.folder_location f).isOk = true :=
    fun f hf => hok f (List.mem_append_left _ hf)
  have hokl2 : ∀ f ∈ l2,
      (process_candidate cap env request.folder_location f).isOk = true :=
    fun f hf => hok f (List.mem_append_right _ hf)
  have hx1 : (process_candidate cap env request.folder_location x).toOption
      = none := by rw [hx]; rfl
  have hx2 : errOpt (process_candidate cap env request.folder_location x)
      = some e := by rw [hx]; rfl
  have he1 := filterMap_errOpt_eq_nil_of_ok
    (fun f => process_candidate cap env request.folder_location f) l1 hokl1
  have he2 := filterMap_errOpt_eq_nil_of_ok
    (fun f => process_candidate cap env request.folder_location f) l2 hokl2
  have hr1 := filterMap_toOption_length_of_ok
    (fun f => process_candidate cap env request.folder_location f) l1 hokl1
  have hr2 := filterMap_toOption_length_of_ok
    (fun f => process_candidate cap env request.folder_location f) l2 hokl2
  refine ⟨_, create_loop_eq env cap request all_files hcap hdir hls hne,
    ?_, process_candidate_error_shape cap env request.folder_location x e hx,
    ?_, ?_⟩
  · simp [loopResponse, loopErrors, hfiles, List.filterMap_append,
      List.filterMap_cons, hx2, he1, he2]
  · simp [loopResponse, loopResults, hfiles, List.filterMap_append,
      List.filterMap_cons, hx1, hr1, hr2]
  · simp [loopResponse, loopResults, hfiles, List.filterMap_append,
      List.filterMap_cons, hx1]

/-- Witness for C1: three candidates of which the middle one fails to load;
the concrete report has one error and two ordered results. -/
theorem failure_isolation_single_failure_witness :
    create_captions_for_images_in_folder envIso ⟨"/d"⟩ = .ok respIso ∧
    respIso.errors.length = 1 ∧ respIso.results.length = 2 := by
  obtain ⟨resp, hres, herr, hm, hlen, hord⟩ :=
    failure_isolation_single_failure envIso capGood ⟨"/d"⟩
      ["a.jpg", "bad.png", "c.gif"] ["a.jpg"] ["c.gif"] "bad.png" isoErrorString
      rfl rfl rfl (by decide) (by decide) (by decide)
  have hr2 : create_captions_for_images_in_folder envIso ⟨"/d"⟩
      = .ok respIso := by decide
  rw [hres] at hr2
  injection hr2 with hresp
  subst hresp
  exact ⟨hres, by rw [herr]; rfl, by rw [hlen]; rfl⟩

/-- Counterexample to claim C9 as stated: two runs against the same unchanged
directory (identical `isdir`, `listdir`, `loadImage`, `abspath`) with Ready
engines need not put the same filenames into `results` and `errors` — if the
engine behaves differently across the runs (it is not assumed deterministic
in the claim's first half), one run captions `a.jpg` with no errors while the
other records one error for it. -/
theorem idempotence_counterexample :
    envReady.isdir = envReadyBoom.isdir ∧
    envReady.listdir = envReadyBoom.listdir ∧
    envReady.loadImage = envReadyBoom.loadImage ∧
    envReady.abspath = envReadyBoom.abspath ∧
    envReady.captioner.isSome = true ∧
    envReadyBoom.captioner.isSome = true ∧
    Except.map (fun (r : CaptionSummaryResponse) => r.errors.length)
      (create_captions_for_images_in_folder envReady ⟨"/d"⟩) = .ok 0 ∧
    Except.map (fun (r : CaptionSummaryResponse) => r.errors.length)
      (create_captions_for_images_in_folder envReadyBoom ⟨"/d"⟩) = .ok 1 := by
  exact ⟨rfl, rfl, rfl, rfl, rfl, rfl, by decide, by decide⟩

/-- Claim C9 (amended): two invocations against the same unchanged directory
with Ready engines always agree on `total_images_found`; if moreover the
caption engine is the same deterministic function in both runs, the whole
responses — filenames, error strings, and descriptions byte-for-byte — are
identical. -/
theorem determinism_of_runs {Img : Type} (e1 e2 : Env Img)
    (request : ImageCaptionRequest)
    (c1 c2 : Img → GenerationArgs → Except String CaptionsOutput)
    (hd : e1.isdir = e2.isdir) (hl : e1.listdir = e2.listdir)
    (hi : e1.loadImage = e2.loadImage) (ha : e1.abspath = e2.abspath)
    (hc1 : e1.captioner = some c1) (hc2 : e2.captioner = some c2) :
    Except.map (fun r => r.total_images_found)
        (create_captions_for_images_in_folder e1 request) =
      Except.map (fun r => r.total_images_found)
        (create_captions_for_images_in_folder e2 request) ∧
    (c1 = c2 →
      create_captions_for_images_in_folder e1 request =
        create_captions_for_images_in_folder e2 request) := by
  constructor
  · cases hdir : e1.isdir request.folder_location with
    | false =>
        rw [create_notdir_eq e1 c1 request hc1 hdir,
          create_notdir_eq e2 c2 request hc2 (by rw [← hd]; exact hdir)]
    | true =>
      have hdir2 : e2.isdir request.folder_location = true := by
        rw [← hd]; exact hdir
      cases hls : e1.listdir request.folder_location with
      | error e =>
          rw [create_listdir_err_eq e1 c1 request e hc1 hdir hls,
            create_listdir_err_eq e2 c2 request e hc2 hdir2
              (by rw [← hl]; exact hls)]
      | ok all_files =>
          have hls2 : e2.listdir request.folder_location = .ok all_files := by
            rw [← hl]; exact hls
          by_cases hz : imageFilenamesOf all_files = []
          · rw [create_empty_eq e1 c1 request all_files hc1 hdir hls hz,
              create_empty_eq e2 c2 request all_files hc2 hdir2 hls2 hz]
          · rw [create_loop_eq e1 c1 request all_files hc1 hdir hls hz,
              create_loop_eq e2 c2 request all_files hc2 hdir2 hls2 hz]
            rfl
  · intro hcc
    subst hcc
    have heq : e1 = e2 := by
      cases e1
      cases e2
      simp only at hd hl hi ha hc1 hc2
      subst hd; subst hl; subst hi; subst ha
      rw [hc1, hc2]
    rw [heq]

/-- Witness for C9 (amended): both conclusions at the concrete Ready
environment, run twice with the same deterministic captioner. -/
theorem determinism_of_runs_witness :
    Except.map (fun (r : CaptionSummaryResponse) => r.total_images_found)
        (create_captions_for_images_in_folder envReady ⟨"/d"⟩) =
      Except.map (fun (r : CaptionSummaryResponse) => r.total_images_found)
        (create_captions_for_images_in_folder envReady ⟨"/d"⟩) ∧
    create_captions_for_images_in_folder envReady ⟨"/d"⟩ =
      create_captions_for_images_in_folder envReady ⟨"/d"⟩ :=
  ⟨(determinism_of_runs envReady envReady ⟨"/d"⟩ capGood capGood
      rfl rfl rfl rfl rfl rfl).1,
   (determinism_of_runs envReady envReady ⟨"/d"⟩ capGood capGood
      rfl rfl rfl rfl rfl rfl).2 rfl⟩
